import Mathlib

/-!
Verification of the zone-file rdata scanner (`zscan_rr.go`).

The Go source parses the rdata portion of DNS resource records from a
channel of lexical tokens.  We embed it shallowly: the token channel
becomes a `List Lex` (the lexer's contract is to keep producing `EOF`
after end of stream, so pulling from an empty list yields an `EOF`
token), each `set*` grammar becomes a function from the header and the
token list to an `Except ParseError record` paired with the remaining
token list, and Go's machine integers become `Nat`/`Int` with explicit
`% 2^w` at the conversion sites.

External collaborators that the scanner calls but that live outside the
source file (`IsDomainName`, `Str_rr`, `dateToTime`) are kept abstract
in a `Collab` record; theorems quantify over them, and a small concrete
instance is used to evaluate closed statements.  The Go standard
library's `net.ParseIP` and `strconv.Atoi` are translated concretely,
since the address and numeric claims hinge on their exact behaviour.
-/

namespace Zscan

/-- Tag of a lexical token, as produced by the external lexer.  The data
model of the scanner distinguishes the four tags used in this file:
`_STRING`, `_BLANK`, `_NEWLINE`, `_EOF`. -/
inductive LexValue where
  | STRING
  | BLANK
  | NEWLINE
  | EOF
  deriving DecidableEq

/-- A lexical token: the tag together with its payload text (the fields
of Go's `Lex` that this file reads). -/
structure Lex where
  value : LexValue
  token : String
  deriving DecidableEq

/-- Go's `ParseError{err, lex}`: a kind label plus the offending token. -/
structure ParseError where
  err : String
  lex : Lex
  deriving DecidableEq

/-- Modelled from the spec: the Go zero value `Lex{}` used by the
dispatcher's unknown-type error.  Its payload string is empty; the
numeric tag of the zero value is fixed by the external lexer's constant
numbering, modelled here as the first tag. -/
def emptyLex : Lex := ⟨LexValue.STRING, ""⟩

/-- Pull one token from the stream.  The lexer's collaborator contract
is to produce `EOF` forever after end of stream, so an exhausted list
yields an `EOF` token. -/
def next : List Lex → Lex × List Lex
  | [] => (⟨LexValue.EOF, ""⟩, [])
  | l :: c => (l, c)

/- ### Go integer conversions -/

/-- Go's `strings.ToUpper` on the mnemonic tokens: per-character upper
casing (the mnemonics are ASCII). -/
def strToUpper (s : String) : String := ⟨s.data.map Char.toUpper⟩

/-- Go's `uint8(i)` conversion on a machine integer: reduction modulo `2^8`. -/
def toUint8 (i : Int) : Nat := (i % 256).toNat

/-- Go's `uint16(i)` conversion on a machine integer: reduction modulo `2^16`. -/
def toUint16 (i : Int) : Nat := (i % 65536).toNat

/-- Go's `uint32(i)` conversion on a machine integer: reduction modulo `2^32`. -/
def toUint32 (i : Int) : Nat := (i % 4294967296).toNat

/-- Value of a list of decimal digit characters. -/
def digitsToNat (ds : List Char) : Nat :=
  ds.foldl (fun n c => n * 10 + (c.toNat - 48)) 0

/-- Go's `strconv.Atoi`: an optional sign followed by at least one
decimal digit, with the value required to fit the 64-bit machine `int`;
any other text (or an out-of-range value) is an error, modelled as
`none`. -/
def Atoi (s : String) : Option Int :=
  match s.data with
  | [] => none
  | frst :: _ =>
    let ds : List Char :=
      if frst = '-' ∨ frst = '+' then s.data.tail else s.data
    let neg : Bool := frst = '-'
    if ds.isEmpty then none
    else if ds.all Char.isDigit then
      let v : Int := if neg then -(digitsToNat ds : Int) else (digitsToNat ds : Int)
      if v < -(2 ^ 63 : Int) ∨ (2 ^ 63 : Int) - 1 < v then none else some v
    else none

/- ### The Go standard library's `net.ParseIP`

Translated from `net/ip.go` (an external collaborator of the scanner):
`parseIPv4` accepts exactly four dot-separated decimal octets, and
`parseIPv6` accepts the RFC 4291 colon-hex forms including `::` elision
and an embedded IPv4 suffix.  An IP is a 16-byte value, modelled as a
`List Nat` of its bytes. -/

/-- `dtoi`: consume leading decimal digits, failing once the
accumulated value reaches the guard bound `0xFFFFFF`. -/
def dtoiLoop : Nat → List Char → Option (Nat × List Char)
  | n, [] => some (n, [])
  | n, c :: cs =>
    if c.isDigit then
      let n2 := n * 10 + (c.toNat - 48)
      if n2 ≥ 0xFFFFFF then none else dtoiLoop n2 cs
    else some (n, c :: cs)

/-- `dtoi` requires at least one digit. -/
def dtoi (cs : List Char) : Option (Nat × List Char) :=
  match cs with
  | [] => none
  | c :: _ => if c.isDigit then dtoiLoop 0 cs else none

/-- Value of one hexadecimal digit character. -/
def hexVal (c : Char) : Option Nat :=
  if c.isDigit then some (c.toNat - 48)
  else if 'a' ≤ c ∧ c ≤ 'f' then some (c.toNat - 97 + 10)
  else if 'A' ≤ c ∧ c ≤ 'F' then some (c.toNat - 65 + 10)
  else none

/-- `xtoi`: consume leading hexadecimal digits with the same guard
bound as `dtoi`. -/
def xtoiLoop : Nat → List Char → Option (Nat × List Char)
  | n, [] => some (n, [])
  | n, c :: cs =>
    match hexVal c with
    | none => some (n, c :: cs)
    | some d =>
      let n2 := n * 16 + d
      if n2 ≥ 0xFFFFFF then none else xtoiLoop n2 cs

/-- `xtoi` requires at least one hex digit. -/
def xtoi (cs : List Char) : Option (Nat × List Char) :=
  match cs with
  | [] => none
  | c :: _ => if (hexVal c).isSome then xtoiLoop 0 cs else none

/-- `parseIPv4`'s octet loop: `k` octets still to read; a `.` separator
is required before every octet except the first; each octet must be a
decimal number of at most 255; the text must be fully consumed. -/
def parseIPv4Loop : Nat → List Char → List Nat → Option (List Nat)
  | 0, cs, acc => if cs.isEmpty then some acc else none
  | k + 1, cs, acc =>
    match (if acc.isEmpty then some cs
           else match cs with
                | '.' :: rest => some rest
                | _ => none) with
    | none => none
    | some cs2 =>
      match dtoi cs2 with
      | none => none
      | some (n, rest) =>
        if n > 255 then none else parseIPv4Loop k rest (acc ++ [n])

/-- `parseIPv4`: four dotted decimal octets, returned in Go's 16-byte
IPv4-in-IPv6 representation (the `IPv4()` constructor). -/
def parseIPv4Core (cs : List Char) : Option (List Nat) :=
  match parseIPv4Loop 4 cs [] with
  | some [a, b, c, d] => some [0, 0, 0, 0, 0, 0, 0, 0, 0, 0, 255, 255, a, b, c, d]
  | _ => none

/-- End of `parseIPv6`'s loop: the text must be fully consumed; if
fewer than 16 bytes were produced an ellipsis must be present and is
expanded with zero bytes at its position; if all 16 bytes were produced
an ellipsis must be absent. -/
def v6Finish (j : Nat) (ell : Option Nat) (ip : List Nat) (cs : List Char) : Option (List Nat) :=
  if ¬ cs.isEmpty then none
  else if j < 16 then
    match ell with
    | none => none
    | some e => some (ip.take e ++ List.replicate (16 - j) 0 ++ ip.drop e)
  else
    match ell with
    | none => some ip
    | some _ => none

/-- `parseIPv6`'s main loop: parse a hex group; a following `.` switches
to an embedded IPv4 suffix (only allowed in the last four bytes, or
after an ellipsis); otherwise store the 16-bit group and continue past a
`:` separator, recording at most one `::` ellipsis.  `fuel` bounds the
iteration count (each step adds two bytes, so eight steps suffice). -/
def parseIPv6Loop (fuel : Nat) (j : Nat) (ell : Option Nat) (ip : List Nat)
    (cs : List Char) : Option (List Nat) :=
  if 16 ≤ j then v6Finish j ell ip cs
  else match fuel with
  | 0 => none
  | fuel + 1 =>
    match xtoi cs with
    | none => none
    | some (n, rest) =>
      if n > 0xFFFF then none
      else if rest.head? = some '.' then
        if (ell.isNone ∧ j ≠ 12) ∨ j + 4 > 16 then none
        else
          match parseIPv4Core cs with
          | none => none
          | some ip4 => v6Finish (j + 4) ell (ip ++ ip4.drop 12) []
      else
        let ip2 := ip ++ [n / 256, n % 256]
        let j2 := j + 2
        match rest with
        | [] => v6Finish j2 ell ip2 []
        | ':' :: rest2 =>
          match rest2 with
          | [] => none
          | ':' :: rest3 =>
            match ell with
            | some _ => none
            | none =>
              if rest3.isEmpty then v6Finish j2 (some j2) ip2 []
              else parseIPv6Loop fuel j2 (some j2) ip2 rest3
          | _ => parseIPv6Loop fuel j2 ell ip2 rest2
        | _ => none

/-- `parseIPv6`: handle a leading `::` (possibly the whole address),
then run the group loop. -/
def parseIPv6 (s : String) : Option (List Nat) :=
  match s.data with
  | ':' :: ':' :: rest =>
    if rest.isEmpty then some (List.replicate 16 0)
    else parseIPv6Loop 9 0 (some 0) [] rest
  | cs => parseIPv6Loop 9 0 none [] cs

/-- `net.ParseIP`: try the dotted IPv4 form, then the IPv6 form; `none`
models Go's `nil` result.  Note that it accepts both address families.  -/
def ParseIP (s : String) : Option (List Nat) :=
  match parseIPv4Core s.data with
  | some p => some p
  | none => parseIPv6 s

example : ParseIP ("192.0.2.1") =
    some [0, 0, 0, 0, 0, 0, 0, 0, 0, 0, 255, 255, 192, 0, 2, 1] := by decide

example : ParseIP ("::1") =
    some [0, 0, 0, 0, 0, 0, 0, 0, 0, 0, 0, 0, 0, 0, 0, 1] := by decide

example : ParseIP ("2001:db8::8:800:200c:417a") =
    some [32, 1, 13, 184, 0, 0, 0, 0, 0, 8, 8, 0, 32, 12, 65, 122] := by decide

example : ParseIP ("::ffff:192.0.2.128") =
    some [0, 0, 0, 0, 0, 0, 0, 0, 0, 0, 255, 255, 192, 0, 2, 128] := by decide

example : ParseIP ("not.an.ip") = none := by decide

example : ParseIP ("1.2.3.4.5") = none := by decide

example : ParseIP ("1.2.3.256") = none := by decide

example : ParseIP ("1:2") = none := by decide

example : ParseIP ("") = none := by decide

example : Atoi ("65536") = some 65536 := by decide

example : Atoi ("-1") = some (-1) := by decide

example : Atoi ("10") = some 10 := by decide

example : Atoi ("x10") = none := by decide

example : Atoi ("") = none := by decide

example : Atoi ("+") = none := by decide

example : toUint16 65536 = 0 := by decide

example : toUint32 (-1) = 4294967295 := by decide

/- ### Record types -/

/-- The record header (`RR_Header`), passed in fully formed and copied
into the produced record unchanged. -/
structure RR_Header where
  Name : String
  Rrtype : Nat
  Class : Nat
  Ttl : Nat
  Rdlength : Nat
  deriving DecidableEq

structure RR_A where
  Hdr : RR_Header
  A : List Nat
  deriving DecidableEq

structure RR_AAAA where
  Hdr : RR_Header
  AAAA : List Nat
  deriving DecidableEq

structure RR_NS where
  Hdr : RR_Header
  Ns : String
  deriving DecidableEq

structure RR_CNAME where
  Hdr : RR_Header
  Cname : String
  deriving DecidableEq

structure RR_MX where
  Hdr : RR_Header
  Pref : Nat
  Mx : String
  deriving DecidableEq

structure RR_SOA where
  Hdr : RR_Header
  Ns : String
  Mbox : String
  Serial : Nat
  Refresh : Nat
  Retry : Nat
  Expire : Nat
  Minttl : Nat
  deriving DecidableEq

structure RR_RRSIG where
  Hdr : RR_Header
  TypeCovered : Nat
  Algorithm : Nat
  Labels : Nat
  OrigTtl : Nat
  Expiration : Nat
  Inception : Nat
  KeyTag : Nat
  SignerName : String
  Signature : String
  deriving DecidableEq

structure RR_NSEC where
  Hdr : RR_Header
  NextDomain : String
  TypeBitMap : List Nat
  deriving DecidableEq

structure RR_NSEC3 where
  Hdr : RR_Header
  Hash : Nat
  Flags : Nat
  Iterations : Nat
  SaltLength : Nat
  Salt : String
  HashLength : Nat
  NextDomain : String
  TypeBitMap : List Nat
  deriving DecidableEq

structure RR_TXT where
  Hdr : RR_Header
  Txt : String
  deriving DecidableEq

/-- The `RR` interface value returned by the dispatcher: one variant
per record type supported by this file. -/
inductive RR where
  | A (rr : RR_A)
  | AAAA (rr : RR_AAAA)
  | NS (rr : RR_NS)
  | CNAME (rr : RR_CNAME)
  | MX (rr : RR_MX)
  | SOA (rr : RR_SOA)
  | RRSIG (rr : RR_RRSIG)
  | NSEC (rr : RR_NSEC)
  | NSEC3 (rr : RR_NSEC3)
  | TXT (rr : RR_TXT)
  deriving DecidableEq

/- Modelled from the spec: the record-type codes (`TypeA`, ...) are
declared outside this source file; they are the registered DNS type
numbers. -/

def TypeA : Nat := 1
def TypeNS : Nat := 2
def TypeCNAME : Nat := 5
def TypeSOA : Nat := 6
def TypeMX : Nat := 15
def TypeTXT : Nat := 16
def TypeAAAA : Nat := 28
def TypeRRSIG : Nat := 46
def TypeNSEC : Nat := 47
def TypeNSEC3 : Nat := 50

/-- The external collaborators called by the scanner but defined
elsewhere in the repository: the domain-name validator
(`IsDomainName`), the mnemonic-to-type-code table (`Str_rr`, keyed by
upper-case names), and the timestamp parser (`dateToTime`, returning a
32-bit epoch value).  The grammars are parametric in them. -/
structure Collab where
  IsDomainName : String → Bool
  Str_rr : String → Option Nat
  dateToTime : String → Option Nat

/- ### The scanner, translated function by function -/

/-- `slurpRemainder`: after a fixed-arity record's rdata, allow one
optional `_BLANK` and then require `_NEWLINE` or `_EOF`; anything else
is a `garbage after rdata` error.  Returns the error (if any) together
with the remaining stream. -/
def slurpRemainder (c : List Lex) : Option ParseError × List Lex :=
  let (l, c) := next c
  match l.value with
  | LexValue.BLANK =>
    let (l2, c2) := next c
    if l2.value ≠ LexValue.NEWLINE ∧ l2.value ≠ LexValue.EOF then
      (some ⟨"garbage after rdata", l2⟩, c2)
    else (none, c2)
  | LexValue.NEWLINE => (none, c)
  | LexValue.EOF => (none, c)
  | LexValue.STRING => (some ⟨"garbage after rdata", l⟩, c)

/-- Sequencing for the grammars: thread the stream through, aborting on
the first error (Go's early `return nil, err`). -/
def andThen {α β : Type} (r : Except ParseError α × List Lex)
    (f : α → List Lex → Except ParseError β × List Lex) :
    Except ParseError β × List Lex :=
  match r with
  | (Except.ok a, c) => f a c
  | (Except.error e, c) => (Except.error e, c)

/-- `setA`: one token, parsed with `net.ParseIP`; a `nil` result is a
`bad a` error. -/
def setA (h : RR_Header) (c : List Lex) : Except ParseError RR_A × List Lex :=
  let (l, c) := next c
  match ParseIP l.token with
  | none => (Except.error ⟨"bad a", l⟩, c)
  | some ip => (Except.ok ⟨h, ip⟩, c)

/-- `setAAAA`: one token, parsed with `net.ParseIP`; a `nil` result is
a `bad AAAA` error. -/
def setAAAA (h : RR_Header) (c : List Lex) : Except ParseError RR_AAAA × List Lex :=
  let (l, c) := next c
  match ParseIP l.token with
  | none => (Except.error ⟨"bad AAAA", l⟩, c)
  | some ip => (Except.ok ⟨h, ip⟩, c)

/-- `setNS`: one domain-name token, checked with `IsDomainName`. -/
def setNS (co : Collab) (h : RR_Header) (c : List Lex) :
    Except ParseError RR_NS × List Lex :=
  let (l, c) := next c
  if co.IsDomainName l.token then (Except.ok ⟨h, l.token⟩, c)
  else (Except.error ⟨"bad NS", l⟩, c)

/-- `setCNAME`: one domain-name token, checked with `IsDomainName`. -/
def setCNAME (co : Collab) (h : RR_Header) (c : List Lex) :
    Except ParseError RR_CNAME × List Lex :=
  let (l, c) := next c
  if co.IsDomainName l.token then (Except.ok ⟨h, l.token⟩, c)
  else (Except.error ⟨"bad CNAME", l⟩, c)

/-- `setMX`: a preference number (via `Atoi`, stored with a `uint16`
conversion), a blindly consumed separator token, then the exchange
domain name.  Note the source labels the bad-domain error
`bad CNAME`, not `bad MX`. -/
def setMX (co : Collab) (h : RR_Header) (c : List Lex) :
    Except ParseError RR_MX × List Lex :=
  let (l, c) := next c
  match Atoi l.token with
  | none => (Except.error ⟨"bad MX", l⟩, c)
  | some i =>
    let (_, c) := next c
    let (l2, c) := next c
    if co.IsDomainName l2.token then (Except.ok ⟨h, toUint16 i, l2.token⟩, c)
    else (Except.error ⟨"bad CNAME", l2⟩, c)

/-- One iteration of `setSOA`'s numeric loop: read a token, parse it
with `Atoi` (a failure is `bad SOA zone parameter`), convert with
`uint32`, then blindly consume the separator token that follows. -/
def readSoaNum (c : List Lex) : Except ParseError Nat × List Lex :=
  let (l, c) := next c
  match Atoi l.token with
  | none => (Except.error ⟨"bad SOA zone parameter", l⟩, c)
  | some j =>
    let (_, c) := next c
    (Except.ok (toUint32 j), c)

/-- `setSOA`: the primary name (whose separator is consumed before the
validity check, as in the source), the mailbox name, then five numeric
fields each followed by a blindly consumed separator token. -/
def setSOA (co : Collab) (h : RR_Header) (c : List Lex) :
    Except ParseError RR_SOA × List Lex :=
  let (l, c) := next c
  let (_, c) := next c
  if ¬ co.IsDomainName l.token then (Except.error ⟨"bad SOA mname", l⟩, c)
  else
    let (l2, c) := next c
    if ¬ co.IsDomainName l2.token then (Except.error ⟨"bad SOA rname", l2⟩, c)
    else
      let (_, c) := next c
      andThen (readSoaNum c) fun serial c =>
      andThen (readSoaNum c) fun refresh c =>
      andThen (readSoaNum c) fun retry c =>
      andThen (readSoaNum c) fun expire c =>
      andThen (readSoaNum c) fun minttl c =>
      (Except.ok ⟨h, l.token, l2.token, serial, refresh, retry, expire, minttl⟩, c)

/-- Read one numeric leading field (`Atoi`, failure labelled `ek`). -/
def readNum (ek : String) (c : List Lex) : Except ParseError Int × List Lex :=
  let (l, c) := next c
  match Atoi l.token with
  | none => (Except.error ⟨ek, l⟩, c)
  | some i => (Except.ok i, c)

/-- Read one timestamp leading field (`dateToTime`, failure labelled `ek`). -/
def readDate (co : Collab) (ek : String) (c : List Lex) :
    Except ParseError Nat × List Lex :=
  let (l, c) := next c
  match co.dateToTime l.token with
  | none => (Except.error ⟨ek, l⟩, c)
  | some i => (Except.ok i, c)

/-- Blindly consume one separator token, then run the given reader
(the `<-c // _BLANK` pattern of the source). -/
def sepThen {α : Type} (f : List Lex → Except ParseError α × List Lex)
    (c : List Lex) : Except ParseError α × List Lex :=
  let (_, c) := next c
  f c

/-- `setRRSIG`'s trailing scan: append every `_STRING` token's text to
the signature, skip `_BLANK` tokens, stop at (and consume) `_NEWLINE`
or `_EOF`. -/
def rrsigTail (s : String) : List Lex → Except ParseError String × List Lex
  | [] => (Except.ok s, [])
  | l :: c =>
    match l.value with
    | LexValue.NEWLINE => (Except.ok s, c)
    | LexValue.EOF => (Except.ok s, c)
    | LexValue.STRING => rrsigTail (s ++ l.token) c
    | LexValue.BLANK => rrsigTail s c

/-- `setRRSIG`: seven leading fields (covered-type mnemonic via
`Str_rr` after upper-casing, three numbers, two timestamps, the key
tag), each behind a blindly consumed separator, then the signer name
and the signature scan loop.  Every failure is labelled `bad RRSIG`. -/
def setRRSIG (co : Collab) (h : RR_Header) (c : List Lex) :
    Except ParseError RR_RRSIG × List Lex :=
  let (l, c) := next c
  match co.Str_rr (strToUpper l.token) with
  | none => (Except.error ⟨"bad RRSIG", l⟩, c)
  | some t =>
    andThen (sepThen (readNum "bad RRSIG") c) fun alg c =>
    andThen (sepThen (readNum "bad RRSIG") c) fun lab c =>
    andThen (sepThen (readNum "bad RRSIG") c) fun ottl c =>
    andThen (sepThen (readDate co "bad RRSIG") c) fun expi c =>
    andThen (sepThen (readDate co "bad RRSIG") c) fun ince c =>
    andThen (sepThen (readNum "bad RRSIG") c) fun kt c =>
      let (_, c) := next c
      let (l2, c) := next c
      if ¬ co.IsDomainName l2.token then (Except.error ⟨"bad RRSIG", l2⟩, c)
      else
        andThen (rrsigTail "" c) fun s c =>
        (Except.ok ⟨h, t, toUint8 alg, toUint8 lab, toUint32 ottl,
                    expi, ince, toUint16 kt, l2.token, s⟩, c)

/-- `setNSEC`'s bitmap scan: skip `_BLANK`, resolve each `_STRING`
through `Str_rr` (after upper-casing) and append its code, stop at
(and consume) `_NEWLINE` or `_EOF`. -/
def nsecTail (co : Collab) (acc : List Nat) :
    List Lex → Except ParseError (List Nat) × List Lex
  | [] => (Except.ok acc, [])
  | l :: c =>
    match l.value with
    | LexValue.NEWLINE => (Except.ok acc, c)
    | LexValue.EOF => (Except.ok acc, c)
    | LexValue.BLANK => nsecTail co acc c
    | LexValue.STRING =>
      match co.Str_rr (strToUpper l.token) with
      | none => (Except.error ⟨"bad NSEC non RR in type bitmap", l⟩, c)
      | some k => nsecTail co (acc ++ [k]) c

/-- `setNSEC`: the next-domain name, then the type-bitmap scan. -/
def setNSEC (co : Collab) (h : RR_Header) (c : List Lex) :
    Except ParseError RR_NSEC × List Lex :=
  let (l, c) := next c
  if ¬ co.IsDomainName l.token then (Except.error ⟨"bad NSEC nextdomain", l⟩, c)
  else
    andThen (nsecTail co [] c) fun bm c =>
    (Except.ok ⟨h, l.token, bm⟩, c)

/-- `setNSEC3`'s bitmap scan: as for NSEC but labelled `bad NSEC3`. -/
def nsec3Tail (co : Collab) (acc : List Nat) :
    List Lex → Except ParseError (List Nat) × List Lex
  | [] => (Except.ok acc, [])
  | l :: c =>
    match l.value with
    | LexValue.NEWLINE => (Except.ok acc, c)
    | LexValue.EOF => (Except.ok acc, c)
    | LexValue.BLANK => nsec3Tail co acc c
    | LexValue.STRING =>
      match co.Str_rr (strToUpper l.token) with
      | none => (Except.error ⟨"bad NSEC3", l⟩, c)
      | some k => nsec3Tail co (acc ++ [k]) c

/-- Go's `uint8(len(s))`: the byte length of the text reduced mod 256. -/
def lenUint8 (s : String) : Nat := s.utf8ByteSize % 256

/-- `setNSEC3`: three numeric fields with separators, the salt and the
hashed next domain (recorded with their `uint8` lengths, unvalidated),
then the type-bitmap scan. -/
def setNSEC3 (co : Collab) (h : RR_Header) (c : List Lex) :
    Except ParseError RR_NSEC3 × List Lex :=
  andThen (readNum "bad NSEC3" c) fun hash c =>
  andThen (sepThen (readNum "bad NSEC3") c) fun flags c =>
  andThen (sepThen (readNum "bad NSEC3") c) fun iter c =>
    let (_, c) := next c
    let (l, c) := next c
    let (_, c) := next c
    let (l2, c) := next c
    andThen (nsec3Tail co [] c) fun bm c =>
    (Except.ok ⟨h, toUint8 hash, toUint8 flags, toUint16 iter,
                lenUint8 l.token, l.token, lenUint8 l2.token, l2.token, bm⟩, c)

/-- `setTXT`'s scan: append both `_STRING` and `_BLANK` token text
verbatim, stop at (and consume) `_NEWLINE` or `_EOF`. -/
def txtTail (s : String) : List Lex → Except ParseError String × List Lex
  | [] => (Except.ok s, [])
  | l :: c =>
    match l.value with
    | LexValue.NEWLINE => (Except.ok s, c)
    | LexValue.EOF => (Except.ok s, c)
    | LexValue.STRING => txtTail (s ++ l.token) c
    | LexValue.BLANK => txtTail (s ++ l.token) c

/-- `setTXT`: no leading fields; the whole rdata is the scan loop. -/
def setTXT (h : RR_Header) (c : List Lex) : Except ParseError RR_TXT × List Lex :=
  andThen (txtTail "" c) fun s c => (Except.ok ⟨h, s⟩, c)

/-- A fixed-arity grammar's result followed by `slurpRemainder`. -/
def withSlurp {α : Type} (r : Except ParseError α × List Lex) (inj : α → RR) :
    Except ParseError RR × List Lex :=
  match r with
  | (Except.error e, c) => (Except.error e, c)
  | (Except.ok a, c) =>
    match slurpRemainder c with
    | (some se, c2) => (Except.error se, c2)
    | (none, c2) => (Except.ok (inj a), c2)

/-- A self-delimiting grammar's result, returned as-is. -/
def noSlurp {α : Type} (r : Except ParseError α × List Lex) (inj : α → RR) :
    Except ParseError RR × List Lex :=
  match r with
  | (Except.error e, c) => (Except.error e, c)
  | (Except.ok a, c) => (Except.ok (inj a), c)

/-- `setRR`: dispatch on the header's type code.  Fixed-arity types run
`slurpRemainder` after their grammar; the four variable-tail types do
not; an unrecognized code is an `Unknown RR type` error carrying the
zero token, with nothing consumed. -/
def setRR (co : Collab) (h : RR_Header) (c : List Lex) :
    Except ParseError RR × List Lex :=
  if h.Rrtype = TypeA then withSlurp (setA h c) RR.A
  else if h.Rrtype = TypeAAAA then withSlurp (setAAAA h c) RR.AAAA
  else if h.Rrtype = TypeNS then withSlurp (setNS co h c) RR.NS
  else if h.Rrtype = TypeMX then withSlurp (setMX co h c) RR.MX
  else if h.Rrtype = TypeCNAME then withSlurp (setCNAME co h c) RR.CNAME
  else if h.Rrtype = TypeSOA then withSlurp (setSOA co h c) RR.SOA
  else if h.Rrtype = TypeRRSIG then noSlurp (setRRSIG co h c) RR.RRSIG
  else if h.Rrtype = TypeNSEC then noSlurp (setNSEC co h c) RR.NSEC
  else if h.Rrtype = TypeNSEC3 then noSlurp (setNSEC3 co h c) RR.NSEC3
  else if h.Rrtype = TypeTXT then noSlurp (setTXT h c) RR.TXT
  else (Except.error ⟨"Unknown RR type", emptyLex⟩, c)

/- ### A concrete collaborator instance for closed evaluation -/

/-- Modelled from the spec: a concrete instantiation of the external
collaborator interface, used only to evaluate closed statements.  The
domain validator accepts non-empty names made of letters, digits, dots
and hyphens; the type table holds the registered mnemonics of the
types this file supports; the date parser accepts exactly fourteen
decimal digits (the zone-file `YYYYMMDDHHmmSS` form). -/
def demoCollab : Collab where
  IsDomainName := fun s =>
    !s.isEmpty && s.data.all fun ch => ch.isAlphanum || ch == '.' || ch == '-'
  Str_rr := fun s =>
    if s = "A" then some TypeA
    else if s = "NS" then some TypeNS
    else if s = "CNAME" then some TypeCNAME
    else if s = "SOA" then some TypeSOA
    else if s = "MX" then some TypeMX
    else if s = "TXT" then some TypeTXT
    else if s = "AAAA" then some TypeAAAA
    else if s = "RRSIG" then some TypeRRSIG
    else if s = "NSEC" then some TypeNSEC
    else if s = "NSEC3" then some TypeNSEC3
    else none
  dateToTime := fun s =>
    if s.length == 14 && s.data.all Char.isDigit
    then some (digitsToNat s.data % 4294967296) else none

/-- A concrete header with the given type code, for closed statements. -/
def hdr (ty : Nat) : RR_Header := ⟨"example.org.", ty, 1, 3600, 0⟩

/-- Shorthand for a `_STRING` token. -/
def str (s : String) : Lex := ⟨LexValue.STRING, s⟩

/-- Shorthand for a `_BLANK` token with payload `s`. -/
def blk (s : String) : Lex := ⟨LexValue.BLANK, s⟩

/-- Shorthand for a `_NEWLINE` token. -/
def nl : Lex := ⟨LexValue.NEWLINE, "\n"⟩

/-- Shorthand for an `_EOF` token. -/
def eofTok : Lex := ⟨LexValue.EOF, ""⟩

/- ### Specification-side descriptions of the three scan loops -/

/-- The signature accumulation described by the spec: the `_STRING`
payloads concatenated in encounter order, blanks dropped. -/
def sigSpec : List Lex → String
  | [] => ""
  | l :: ls =>
    match l.value with
    | LexValue.STRING => l.token ++ sigSpec ls
    | _ => sigSpec ls

/-- The text accumulation described by the spec: `_STRING` and `_BLANK`
payloads concatenated verbatim in encounter order. -/
def txtSpec : List Lex → String
  | [] => ""
  | l :: ls =>
    match l.value with
    | LexValue.STRING => l.token ++ txtSpec ls
    | LexValue.BLANK => l.token ++ txtSpec ls
    | _ => txtSpec ls

/-- The type bitmap described by the spec: the looked-up codes of the
`_STRING` tokens in encounter order, duplicates retained, nothing
sorted or deduplicated. -/
def bitmapSpec (co : Collab) : List Lex → List Nat
  | [] => []
  | l :: ls =>
    match l.value with
    | LexValue.STRING =>
      match co.Str_rr (strToUpper l.token) with
      | some k => k :: bitmapSpec co ls
      | none => bitmapSpec co ls
    | _ => bitmapSpec co ls

example : setMX demoCollab (hdr TypeMX) [str ("10"), blk (" "), str ("mail.example.com")]
    = (Except.ok ⟨hdr TypeMX, 10, "mail.example.com"⟩, []) := by rfl

example : setMX demoCollab (hdr TypeMX) [str ("10"), blk (" "), str ("mail.example.com")]
    = (Except.ok ⟨hdr TypeMX, 10, "mail.example.com"⟩, []) := by rfl

example :
    setRR demoCollab (hdr TypeSOA)
      [str ("ns.example.org"), blk (" "), str ("mbox.example.org"), blk (" "),
       str ("1"), blk (" "), str ("2"), blk (" "), str ("3"), blk (" "),
       str ("4"), blk (" "), str ("5"), blk (" "), nl, str ("next")]
    = (Except.ok (RR.SOA ⟨hdr TypeSOA, "ns.example.org", "mbox.example.org", 1, 2, 3, 4, 5⟩),
       [str ("next")]) := by rfl

/- ### Behaviour of the four scan loops -/

/-- The signature loop consumes `_STRING`/`_BLANK` tokens up to and
including the first terminator, accumulating exactly the `_STRING`
payloads in order. -/
theorem rrsigTail_spec (tail : List Lex) (term : Lex) (rest : List Lex) (s : String)
    (hterm : term.value = LexValue.NEWLINE ∨ term.value = LexValue.EOF)
    (htail : ∀ l ∈ tail, l.value = LexValue.STRING ∨ l.value = LexValue.BLANK) :
    rrsigTail s (tail ++ term :: rest) = (Except.ok (s ++ sigSpec tail), rest) := by
  induction tail generalizing s with
  | nil =>
    rcases hterm with h | h <;> simp [rrsigTail, sigSpec, h]
  | cons l ls ih =>
    have hl := htail l (by simp)
    have hls : ∀ x ∈ ls, x.value = LexValue.STRING ∨ x.value = LexValue.BLANK :=
      fun x hx => htail x (by simp [hx])
    rcases hl with h | h
    · rw [List.cons_append]
      simp only [rrsigTail, h]
      rw [ih _ hls]
      simp [sigSpec, h, String.append_assoc]
    · rw [List.cons_append]
      simp only [rrsigTail, h]
      rw [ih _ hls]
      simp [sigSpec, h]

/-- The text loop consumes `_STRING`/`_BLANK` tokens up to and
including the first terminator, accumulating both kinds of payload
verbatim in order. -/
theorem txtTail_spec (tail : List Lex) (term : Lex) (rest : List Lex) (s : String)
    (hterm : term.value = LexValue.NEWLINE ∨ term.value = LexValue.EOF)
    (htail : ∀ l ∈ tail, l.value = LexValue.STRING ∨ l.value = LexValue.BLANK) :
    txtTail s (tail ++ term :: rest) = (Except.ok (s ++ txtSpec tail), rest) := by
  induction tail generalizing s with
  | nil =>
    rcases hterm with h | h <;> simp [txtTail, txtSpec, h]
  | cons l ls ih =>
    have hl := htail l (by simp)
    have hls : ∀ x ∈ ls, x.value = LexValue.STRING ∨ x.value = LexValue.BLANK :=
      fun x hx => htail x (by simp [hx])
    rcases hl with h | h <;>
      · rw [List.cons_append]
        simp only [txtTail, h]
        rw [ih _ hls]
        simp [txtSpec, h, String.append_assoc]

/-- The NSEC bitmap loop consumes resolvable `_STRING` tokens and
`_BLANK` tokens up to and including the first terminator, appending the
looked-up codes in encounter order. -/
theorem nsecTail_spec (co : Collab) (tail : List Lex) (term : Lex) (rest : List Lex)
    (acc : List Nat)
    (hterm : term.value = LexValue.NEWLINE ∨ term.value = LexValue.EOF)
    (htail : ∀ l ∈ tail,
      (l.value = LexValue.STRING ∧ (co.Str_rr (strToUpper l.token)).isSome) ∨
        l.value = LexValue.BLANK) :
    nsecTail co acc (tail ++ term :: rest) = (Except.ok (acc ++ bitmapSpec co tail), rest) := by
  induction tail generalizing acc with
  | nil =>
    rcases hterm with h | h <;> simp [nsecTail, bitmapSpec, h]
  | cons l ls ih =>
    have hl := htail l (by simp)
    have hls : ∀ x ∈ ls,
        (x.value = LexValue.STRING ∧ (co.Str_rr (strToUpper x.token)).isSome) ∨
          x.value = LexValue.BLANK :=
      fun x hx => htail x (by simp [hx])
    rcases hl with ⟨h, hsome⟩ | h
    · obtain ⟨k, hk⟩ := Option.isSome_iff_exists.mp hsome
      rw [List.cons_append]
      simp only [nsecTail, h, hk]
      rw [ih _ hls]
      simp [bitmapSpec, h, hk, List.append_assoc]
    · rw [List.cons_append]
      simp only [nsecTail, h]
      rw [ih _ hls]
      simp [bitmapSpec, h]

/-- The NSEC3 bitmap loop behaves as the NSEC one (with its own error
label, not exercised here). -/
theorem nsec3Tail_spec (co : Collab) (tail : List Lex) (term : Lex) (rest : List Lex)
    (acc : List Nat)
    (hterm : term.value = LexValue.NEWLINE ∨ term.value = LexValue.EOF)
    (htail : ∀ l ∈ tail,
      (l.value = LexValue.STRING ∧ (co.Str_rr (strToUpper l.token)).isSome) ∨
        l.value = LexValue.BLANK) :
    nsec3Tail co acc (tail ++ term :: rest) = (Except.ok (acc ++ bitmapSpec co tail), rest) := by
  induction tail generalizing acc with
  | nil =>
    rcases hterm with h | h <;> simp [nsec3Tail, bitmapSpec, h]
  | cons l ls ih =>
    have hl := htail l (by simp)
    have hls : ∀ x ∈ ls,
        (x.value = LexValue.STRING ∧ (co.Str_rr (strToUpper x.token)).isSome) ∨
          x.value = LexValue.BLANK :=
      fun x hx => htail x (by simp [hx])
    rcases hl with ⟨h, hsome⟩ | h
    · obtain ⟨k, hk⟩ := Option.isSome_iff_exists.mp hsome
      rw [List.cons_append]
      simp only [nsec3Tail, h, hk]
      rw [ih _ hls]
      simp [bitmapSpec, h, hk, List.append_assoc]
    · rw [List.cons_append]
      simp only [nsec3Tail, h]
      rw [ih _ hls]
      simp [bitmapSpec, h]

/-- With all eight leading fields decoding successfully, `setRRSIG`
reduces to its trailing signature scan. -/
theorem setRRSIG_unfold (co : Collab) (h : RR_Header)
    (cov s1 alg s2 lab s3 ot s4 ex s5 inc s6 kt s7 signer : Lex) (c : List Lex)
    (t : Nat) (ia il io ik : Int) (ie ii : Nat)
    (hc : co.Str_rr (strToUpper cov.token) = some t)
    (ha : Atoi alg.token = some ia)
    (hl : Atoi lab.token = some il)
    (ho : Atoi ot.token = some io)
    (he : co.dateToTime ex.token = some ie)
    (hi : co.dateToTime inc.token = some ii)
    (hk : Atoi kt.token = some ik)
    (hs : co.IsDomainName signer.token = true) :
    setRRSIG co h (cov :: s1 :: alg :: s2 :: lab :: s3 :: ot :: s4 :: ex :: s5 ::
        inc :: s6 :: kt :: s7 :: signer :: c)
      = andThen (rrsigTail "" c) fun s c2 =>
          (Except.ok ⟨h, t, toUint8 ia, toUint8 il, toUint32 io, ie, ii,
                      toUint16 ik, signer.token, s⟩, c2) := by
  simp [setRRSIG, sepThen, readNum, readDate, andThen, next, hc, ha, hl, ho, he, hi, hk, hs]

/-- With the three leading numeric fields decoding successfully,
`setNSEC3` reduces to its bitmap scan, the salt and hash tokens taken
verbatim. -/
theorem setNSEC3_unfold (co : Collab) (h : RR_Header)
    (hsh s1 flg s2 itr s3 salt s4 nxt : Lex) (c : List Lex)
    (i1 i2 i3 : Int)
    (h1 : Atoi hsh.token = some i1)
    (h2 : Atoi flg.token = some i2)
    (h3 : Atoi itr.token = some i3) :
    setNSEC3 co h (hsh :: s1 :: flg :: s2 :: itr :: s3 :: salt :: s4 :: nxt :: c)
      = andThen (nsec3Tail co [] c) fun bm c2 =>
          (Except.ok ⟨h, toUint8 i1, toUint8 i2, toUint16 i3, lenUint8 salt.token,
                      salt.token, lenUint8 nxt.token, nxt.token, bm⟩, c2) := by
  simp [setNSEC3, sepThen, readNum, andThen, next, h1, h2, h3]

/- ### The claims -/

/-- C1, counterexample: the claim says a token exceeding the field's
declared width yields a decode error and is never wrapped; but the MX
grammar accepts the token `65536` (out of `uint16` range) and stores
preference `0` — `strconv.Atoi` succeeds and the `uint16` conversion
wraps the value. -/
theorem C1_counterexample :
    setMX demoCollab (hdr TypeMX) [str ("65536"), blk (" "), str ("mail.example.com")]
      = (Except.ok ⟨hdr TypeMX, 0, "mail.example.com"⟩, []) := by rfl

/-- C1, amended: a token that `strconv.Atoi` rejects (non-numeric text,
or text outside the signed 64-bit machine-int range) yields the
`bad <type>` decode error; but any token `Atoi` accepts — including
negative values and values exceeding the field's width — is stored
reduced modulo `2^w` (`uint16` for the MX preference, `uint32` for the
SOA numeric fields, `uint8`/`uint8`/`uint32`/`uint16` for the RRSIG
algorithm/labels/original-TTL/key-tag, `uint8`/`uint8`/`uint16` for the
NSEC3 hash/flags/iterations); the declared width is never checked. -/
theorem C1_numeric_fields :
    (∀ (co : Collab) (h : RR_Header) (l : Lex) (rest : List Lex),
      Atoi l.token = none →
      setMX co h (l :: rest) = (Except.error ⟨"bad MX", l⟩, rest)) ∧
    (∀ (co : Collab) (h : RR_Header) (l sep name : Lex) (rest : List Lex) (i : Int),
      Atoi l.token = some i → co.IsDomainName name.token = true →
      setMX co h (l :: sep :: name :: rest)
        = (Except.ok ⟨h, toUint16 i, name.token⟩, rest)) ∧
    (∀ (l : Lex) (rest : List Lex),
      Atoi l.token = none →
      readSoaNum (l :: rest) = (Except.error ⟨"bad SOA zone parameter", l⟩, rest)) ∧
    (∀ (l sep : Lex) (rest : List Lex) (i : Int),
      Atoi l.token = some i →
      readSoaNum (l :: sep :: rest) = (Except.ok (toUint32 i), rest)) ∧
    (∀ (co : Collab) (h : RR_Header) (l : Lex) (rest : List Lex),
      Atoi l.token = none →
      setNSEC3 co h (l :: rest) = (Except.error ⟨"bad NSEC3", l⟩, rest)) ∧
    (∀ (co : Collab) (h : RR_Header) (n1 s1 n2 s2 n3 s3 salt s4 nxt term : Lex)
        (rest : List Lex) (i1 i2 i3 : Int),
      Atoi n1.token = some i1 → Atoi n2.token = some i2 → Atoi n3.token = some i3 →
      term.value = LexValue.NEWLINE →
      setNSEC3 co h (n1 :: s1 :: n2 :: s2 :: n3 :: s3 :: salt :: s4 :: nxt :: term :: rest)
        = (Except.ok ⟨h, toUint8 i1, toUint8 i2, toUint16 i3, lenUint8 salt.token,
                      salt.token, lenUint8 nxt.token, nxt.token, []⟩, rest)) ∧
    (∀ (co : Collab) (h : RR_Header) (cov s1 alg : Lex) (rest : List Lex) (tc : Nat),
      co.Str_rr (strToUpper cov.token) = some tc →
      Atoi alg.token = none →
      setRRSIG co h (cov :: s1 :: alg :: rest)
        = (Except.error ⟨"bad RRSIG", alg⟩, rest)) ∧
    (∀ (co : Collab) (h : RR_Header)
        (cov s1 alg s2 lab s3 ot s4 ex s5 inc s6 kt s7 signer term : Lex)
        (rest : List Lex) (tc : Nat) (ia il io ik : Int) (ie ii : Nat),
      co.Str_rr (strToUpper cov.token) = some tc →
      Atoi alg.token = some ia → Atoi lab.token = some il → Atoi ot.token = some io →
      co.dateToTime ex.token = some ie → co.dateToTime inc.token = some ii →
      Atoi kt.token = some ik → co.IsDomainName signer.token = true →
      term.value = LexValue.NEWLINE →
      setRRSIG co h (cov :: s1 :: alg :: s2 :: lab :: s3 :: ot :: s4 :: ex :: s5 ::
          inc :: s6 :: kt :: s7 :: signer :: term :: rest)
        = (Except.ok ⟨h, tc, toUint8 ia, toUint8 il, toUint32 io, ie, ii,
                      toUint16 ik, signer.token, ""⟩, rest)) := by
  refine ⟨?_, ?_, ?_, ?_, ?_, ?_, ?_, ?_⟩
  · intro co h l rest ha
    simp [setMX, next, ha]
  · intro co h l sep name rest i ha hd
    simp [setMX, next, ha, hd]
  · intro l rest ha
    simp [readSoaNum, next, ha]
  · intro l sep rest i ha
    simp [readSoaNum, next, ha]
  · intro co h l rest ha
    simp [setNSEC3, readNum, andThen, next, ha]
  · intro co h n1 s1 n2 s2 n3 s3 salt s4 nxt term rest i1 i2 i3 h1 h2 h3 ht
    rw [setNSEC3_unfold co h n1 s1 n2 s2 n3 s3 salt s4 nxt (term :: rest) i1 i2 i3 h1 h2 h3]
    have := nsec3Tail_spec co [] term rest [] (Or.inl ht) (by simp)
    simp only [List.nil_append] at this
    simp [andThen, this, bitmapSpec]
  · intro co h cov s1 alg rest tc hc ha
    simp [setRRSIG, sepThen, readNum, andThen, next, hc, ha]
  · intro co h cov s1 alg s2 lab s3 ot s4 ex s5 inc s6 kt s7 signer term rest
      tc ia il io ik ie ii hc ha hl ho he hi hk hsig ht
    rw [setRRSIG_unfold co h cov s1 alg s2 lab s3 ot s4 ex s5 inc s6 kt s7 signer _
      tc ia il io ik ie ii hc ha hl ho he hi hk hsig]
    have hs := rrsigTail_spec [] term rest ("") (Or.inl ht) (by simp)
    simp only [List.nil_append, sigSpec, String.append_empty] at hs
    simp [andThen, hs]

/-- C1 witness: the theorem applied at concrete inputs — the MX
preference `-1` is accepted and wraps to `65535`, the token `x` is a
`bad MX` error, an NSEC3 iteration count of `65537` wraps to `1`, an
RRSIG algorithm token `x` is a `bad RRSIG` error, and RRSIG algorithm
`260`, original TTL `4294967297` and key tag `65537` wrap to `4`, `1`
and `1` respectively. -/
theorem C1_numeric_fields_witness :
    setMX demoCollab (hdr TypeMX) [str ("-1"), blk (" "), str ("a.example")]
      = (Except.ok ⟨hdr TypeMX, 65535, "a.example"⟩, []) ∧
    setMX demoCollab (hdr TypeMX) [str ("x"), blk (" "), str ("a.example")]
      = (Except.error ⟨"bad MX", str ("x")⟩, [blk (" "), str ("a.example")]) ∧
    setNSEC3 demoCollab (hdr TypeNSEC3)
      [str ("1"), blk (" "), str ("2"), blk (" "), str ("65537"), blk (" "),
       str ("aabb"), blk (" "), str ("deadbeef"), nl]
      = (Except.ok ⟨hdr TypeNSEC3, 1, 2, 1, 4, "aabb", 8, "deadbeef", []⟩, []) ∧
    setRRSIG demoCollab (hdr TypeRRSIG) [str ("A"), blk (" "), str ("x"), blk (" ")]
      = (Except.error ⟨"bad RRSIG", str ("x")⟩, [blk (" ")]) ∧
    setRRSIG demoCollab (hdr TypeRRSIG)
      [str ("A"), blk (" "), str ("260"), blk (" "), str ("3"), blk (" "),
       str ("4294967297"), blk (" "), str ("00000000000000"), blk (" "),
       str ("00000000000001"), blk (" "), str ("65537"), blk (" "),
       str ("example.org"), nl]
      = (Except.ok ⟨hdr TypeRRSIG, TypeA, 4, 3, 1, 0, 1, 1, "example.org", ""⟩, []) := by
  refine ⟨?_, ?_, ?_, ?_, ?_⟩
  · exact C1_numeric_fields.2.1 demoCollab (hdr TypeMX) (str ("-1")) (blk (" "))
      (str ("a.example")) [] (-1) (by decide) (by decide)
  · exact C1_numeric_fields.1 demoCollab (hdr TypeMX) (str ("x"))
      [blk (" "), str ("a.example")] (by decide)
  · exact C1_numeric_fields.2.2.2.2.2.1 demoCollab (hdr TypeNSEC3) (str ("1")) (blk (" "))
      (str ("2")) (blk (" ")) (str ("65537")) (blk (" ")) (str ("aabb")) (blk (" "))
      (str ("deadbeef")) nl [] 1 2 65537 (by decide) (by decide) (by decide) (by decide)
  · exact C1_numeric_fields.2.2.2.2.2.2.1 demoCollab (hdr TypeRRSIG) (str ("A"))
      (blk (" ")) (str ("x")) [blk (" ")] TypeA (by decide) (by decide)
  · exact C1_numeric_fields.2.2.2.2.2.2.2 demoCollab (hdr TypeRRSIG) (str ("A"))
      (blk (" ")) (str ("260")) (blk (" ")) (str ("3")) (blk (" "))
      (str ("4294967297")) (blk (" ")) (str ("00000000000000")) (blk (" "))
      (str ("00000000000001")) (blk (" ")) (str ("65537")) (blk (" "))
      (str ("example.org")) nl [] TypeA 260 3 4294967297 65537 0 1 (by decide)
      (by decide) (by decide) (by decide) (by decide) (by decide) (by decide)
      (by decide) (by decide)

/-- C2, counterexample: the claim says a token of the wrong address
family yields the type-specific error; but the A grammar, which calls
`net.ParseIP`, accepts the IPv6 text `::1` and returns a record, not a
`bad a` error. -/
theorem C2_counterexample :
    setA (hdr TypeA) [str ("::1")]
      = (Except.ok ⟨hdr TypeA, [0, 0, 0, 0, 0, 0, 0, 0, 0, 0, 0, 0, 0, 0, 0, 1]⟩, []) := by rfl

/-- C2, amended: the A (resp. AAAA) grammar succeeds exactly when the
token's text parses as a syntactically valid IP address of either
family (`net.ParseIP` does not distinguish families); a text that is
not an IP address of any family yields the type-specific `bad a` /
`bad AAAA` error carrying that token. -/
theorem C2_address_decode :
    (∀ (h : RR_Header) (l : Lex) (rest : List Lex),
      ParseIP l.token = none →
      setA h (l :: rest) = (Except.error ⟨"bad a", l⟩, rest)) ∧
    (∀ (h : RR_Header) (l : Lex) (rest : List Lex) (ip : List Nat),
      ParseIP l.token = some ip →
      setA h (l :: rest) = (Except.ok ⟨h, ip⟩, rest)) ∧
    (∀ (h : RR_Header) (l : Lex) (rest : List Lex),
      ParseIP l.token = none →
      setAAAA h (l :: rest) = (Except.error ⟨"bad AAAA", l⟩, rest)) ∧
    (∀ (h : RR_Header) (l : Lex) (rest : List Lex) (ip : List Nat),
      ParseIP l.token = some ip →
      setAAAA h (l :: rest) = (Except.ok ⟨h, ip⟩, rest)) := by
  refine ⟨?_, ?_, ?_, ?_⟩ <;> intro h l rest
  · intro hp; simp [setA, next, hp]
  · intro ip hp; simp [setA, next, hp]
  · intro hp; simp [setAAAA, next, hp]
  · intro ip hp; simp [setAAAA, next, hp]

/-- C2 witness: the theorem applied at concrete inputs — a valid IPv4
text is accepted by the A grammar, and a non-IP text is rejected by
both grammars with their own labels. -/
theorem C2_address_decode_witness :
    setA (hdr TypeA) [str ("192.0.2.1")]
      = (Except.ok ⟨hdr TypeA,
          [0, 0, 0, 0, 0, 0, 0, 0, 0, 0, 255, 255, 192, 0, 2, 1]⟩, []) ∧
    setA (hdr TypeA) [str ("junk")]
      = (Except.error ⟨"bad a", str ("junk")⟩, []) ∧
    setAAAA (hdr TypeAAAA) [str ("junk")]
      = (Except.error ⟨"bad AAAA", str ("junk")⟩, []) := by
  refine ⟨?_, ?_, ?_⟩
  · exact C2_address_decode.2.1 (hdr TypeA) (str ("192.0.2.1")) [] _ (by decide)
  · exact C2_address_decode.1 (hdr TypeA) (str ("junk")) [] (by decide)
  · exact C2_address_decode.2.2.1 (hdr TypeAAAA) (str ("junk")) [] (by decide)

/-- C3: `slurpRemainder` reads exactly one token and succeeds if it is
`_NEWLINE` or `_EOF` (also when the stream is already exhausted); on a
`_BLANK` it reads exactly one more token and succeeds iff that token is
`_NEWLINE` or `_EOF`; every other case is a `garbage after rdata` error
carrying the offending token; and it never consumes more than two
tokens (the remaining stream is always `drop 1` or `drop 2` of the
input). -/
theorem C3_slurpRemainder :
    (∀ (t : String) (rest : List Lex),
      slurpRemainder (⟨LexValue.NEWLINE, t⟩ :: rest) = (none, rest)) ∧
    (∀ (t : String) (rest : List Lex),
      slurpRemainder (⟨LexValue.EOF, t⟩ :: rest) = (none, rest)) ∧
    slurpRemainder [] = (none, []) ∧
    (∀ (t t2 : String) (rest : List Lex),
      slurpRemainder (⟨LexValue.BLANK, t⟩ :: ⟨LexValue.NEWLINE, t2⟩ :: rest) = (none, rest)) ∧
    (∀ (t t2 : String) (rest : List Lex),
      slurpRemainder (⟨LexValue.BLANK, t⟩ :: ⟨LexValue.EOF, t2⟩ :: rest) = (none, rest)) ∧
    (∀ (t : String), slurpRemainder [⟨LexValue.BLANK, t⟩] = (none, [])) ∧
    (∀ (t : String) (l2 : Lex) (rest : List Lex),
      l2.value = LexValue.STRING ∨ l2.value = LexValue.BLANK →
      slurpRemainder (⟨LexValue.BLANK, t⟩ :: l2 :: rest)
        = (some ⟨"garbage after rdata", l2⟩, rest)) ∧
    (∀ (t : String) (rest : List Lex),
      slurpRemainder (⟨LexValue.STRING, t⟩ :: rest)
        = (some ⟨"garbage after rdata", ⟨LexValue.STRING, t⟩⟩, rest)) ∧
    (∀ c : List Lex, (slurpRemainder c).2 = c.drop 1 ∨ (slurpRemainder c).2 = c.drop 2) := by
  refine ⟨?_, ?_, ?_, ?_, ?_, ?_, ?_, ?_, ?_⟩
  · intro t rest; rfl
  · intro t rest; rfl
  · rfl
  · intro t t2 rest; rfl
  · intro t t2 rest; rfl
  · intro t; rfl
  · intro t l2 rest hl2
    rcases hl2 with h | h <;> simp [slurpRemainder, next, h]
  · intro t rest; rfl
  · intro c
    rcases c with _ | ⟨⟨v, tok⟩, c2⟩
    · left; rfl
    · cases v
      case STRING => left; rfl
      case NEWLINE => left; rfl
      case EOF => left; rfl
      case BLANK =>
        rcases c2 with _ | ⟨⟨v2, tok2⟩, c3⟩
        · right; rfl
        · cases v2 <;> (right; rfl)

/-- C3 witness: the theorem applied at a concrete input — a `_BLANK`
followed by a `_STRING` is the `garbage after rdata` error. -/
theorem C3_slurpRemainder_witness :
    slurpRemainder [blk (" "), str ("x")]
      = (some ⟨"garbage after rdata", str ("x")⟩, []) :=
  C3_slurpRemainder.2.2.2.2.2.2.1 (" ") (str ("x")) [] (Or.inl rfl)

/-- C4: a header whose type code matches none of the supported types
makes the dispatcher return the `Unknown RR type` error carrying the
empty zero-valued token, consuming nothing from the stream. -/
theorem C4_unknown_type (co : Collab) (h : RR_Header) (c : List Lex)
    (hty : h.Rrtype ∉ ([TypeA, TypeNS, TypeCNAME, TypeSOA, TypeMX, TypeTXT,
                        TypeAAAA, TypeRRSIG, TypeNSEC, TypeNSEC3] : List Nat)) :
    setRR co h c = (Except.error ⟨"Unknown RR type", emptyLex⟩, c) ∧
      emptyLex.token = "" := by
  simp only [List.mem_cons, List.mem_singleton, not_or] at hty
  obtain ⟨h1, h2, h3, h4, h5, h6, h7, h8, h9, h10, -⟩ := hty
  refine ⟨?_, rfl⟩
  simp [setRR, h1, h2, h3, h4, h5, h6, h7, h8, h9, h10]

/-- C4 witness: the theorem applied at the spec's concrete scenario 5 —
type code 65535 is unassigned, and the stream is untouched. -/
theorem C4_unknown_type_witness :
    setRR demoCollab (hdr 65535) [str ("x")]
      = (Except.error ⟨"Unknown RR type", emptyLex⟩, [str ("x")]) ∧
      emptyLex.token = "" :=
  C4_unknown_type demoCollab (hdr 65535) [str ("x")] (by decide)

/-- C5: the claim (and the spec) says every failing MX field decode is
labelled with the record's own type, `bad MX`; the code labels a bad
preference `bad MX` but labels a bad exchange domain `bad CNAME` (a
copy of the CNAME grammar's label), contradicting the spec's stated
error rule.  This theorem evaluates the divergence: a valid preference
followed by a domain the validator rejects yields `bad CNAME`. -/
theorem C5_mx_bad_domain_label (co : Collab) (h : RR_Header)
    (p sep name : Lex) (rest : List Lex) (i : Int)
    (ha : Atoi p.token = some i)
    (hd : co.IsDomainName name.token = false) :
    setMX co h (p :: sep :: name :: rest)
      = (Except.error ⟨"bad CNAME", name⟩, rest) := by
  simp [setMX, next, ha, hd]

/-- C5 witness: the theorem applied at the concrete failing input —
MX rdata `10 !!` (with `!!` rejected by the validator) produces the
`bad CNAME` label instead of `bad MX`. -/
theorem C5_mx_bad_domain_label_witness :
    setMX demoCollab (hdr TypeMX) [str ("10"), blk (" "), str ("!!")]
      = (Except.error ⟨"bad CNAME", str ("!!")⟩, []) :=
  C5_mx_bad_domain_label demoCollab (hdr TypeMX) (str ("10")) (blk (" "))
    (str ("!!")) [] 10 (by decide) (by decide)

/-- C6, counterexample: the claim says a valid leading field followed by
any `_STRING`/`_BLANK` tail and then `_EOF` succeeds; but the NSEC
grammar rejects a tail `_STRING` that the mnemonic lookup cannot
resolve, even with a terminating `_EOF` and no `_NEWLINE`. -/
theorem C6_counterexample :
    setNSEC demoCollab (hdr TypeNSEC)
        [str ("example.org"), blk (" "), str ("ZZZ"), eofTok]
      = (Except.error ⟨"bad NSEC non RR in type bitmap", str ("ZZZ")⟩, [eofTok]) := by rfl

/-- C6, amended: for each of the four variable-tail grammars, valid
leading fields followed by a (possibly empty) `_STRING`/`_BLANK` tail —
whose `_STRING` tokens must additionally resolve through the mnemonic
lookup for the two bitmap grammars — and then an `_EOF` token, with no
`_NEWLINE` ever appearing, terminate successfully on that `_EOF`,
returning the record without error. -/
theorem C6_eof_terminates :
    (∀ (h : RR_Header) (tail : List Lex) (t : String),
      (∀ l ∈ tail, l.value = LexValue.STRING ∨ l.value = LexValue.BLANK) →
      setTXT h (tail ++ [⟨LexValue.EOF, t⟩]) = (Except.ok ⟨h, txtSpec tail⟩, [])) ∧
    (∀ (co : Collab) (h : RR_Header) (cov s1 alg s2 lab s3 ot s4 ex s5 inc s6 kt s7 signer : Lex)
        (tail : List Lex) (t : String) (tc : Nat) (ia il io ik : Int) (ie ii : Nat),
      co.Str_rr (strToUpper cov.token) = some tc →
      Atoi alg.token = some ia → Atoi lab.token = some il → Atoi ot.token = some io →
      co.dateToTime ex.token = some ie → co.dateToTime inc.token = some ii →
      Atoi kt.token = some ik → co.IsDomainName signer.token = true →
      (∀ l ∈ tail, l.value = LexValue.STRING ∨ l.value = LexValue.BLANK) →
      setRRSIG co h (cov :: s1 :: alg :: s2 :: lab :: s3 :: ot :: s4 :: ex :: s5 ::
          inc :: s6 :: kt :: s7 :: signer :: (tail ++ [⟨LexValue.EOF, t⟩]))
        = (Except.ok ⟨h, tc, toUint8 ia, toUint8 il, toUint32 io, ie, ii,
                      toUint16 ik, signer.token, sigSpec tail⟩, [])) ∧
    (∀ (co : Collab) (h : RR_Header) (dom : Lex) (tail : List Lex) (t : String),
      co.IsDomainName dom.token = true →
      (∀ l ∈ tail,
        (l.value = LexValue.STRING ∧ (co.Str_rr (strToUpper l.token)).isSome) ∨
          l.value = LexValue.BLANK) →
      setNSEC co h (dom :: (tail ++ [⟨LexValue.EOF, t⟩]))
        = (Except.ok ⟨h, dom.token, bitmapSpec co tail⟩, [])) ∧
    (∀ (co : Collab) (h : RR_Header) (n1 s1 n2 s2 n3 s3 salt s4 nxt : Lex)
        (tail : List Lex) (t : String) (i1 i2 i3 : Int),
      Atoi n1.token = some i1 → Atoi n2.token = some i2 → Atoi n3.token = some i3 →
      (∀ l ∈ tail,
        (l.value = LexValue.STRING ∧ (co.Str_rr (strToUpper l.token)).isSome) ∨
          l.value = LexValue.BLANK) →
      setNSEC3 co h (n1 :: s1 :: n2 :: s2 :: n3 :: s3 :: salt :: s4 :: nxt ::
          (tail ++ [⟨LexValue.EOF, t⟩]))
        = (Except.ok ⟨h, toUint8 i1, toUint8 i2, toUint16 i3, lenUint8 salt.token,
                      salt.token, lenUint8 nxt.token, nxt.token, bitmapSpec co tail⟩, [])) := by
  refine ⟨?_, ?_, ?_, ?_⟩
  · intro h tail t htail
    have hs := txtTail_spec tail ⟨LexValue.EOF, t⟩ [] ("") (Or.inr rfl) htail
    simp [setTXT, andThen, hs]
  · intro co h cov s1 alg s2 lab s3 ot s4 ex s5 inc s6 kt s7 signer tail t
      tc ia il io ik ie ii hc ha hl ho he hi hk hsig htail
    rw [setRRSIG_unfold co h cov s1 alg s2 lab s3 ot s4 ex s5 inc s6 kt s7 signer _
      tc ia il io ik ie ii hc ha hl ho he hi hk hsig]
    have hs := rrsigTail_spec tail ⟨LexValue.EOF, t⟩ [] ("") (Or.inr rfl) htail
    simp [andThen, hs]
  · intro co h dom tail t hdom htail
    have hs := nsecTail_spec co tail ⟨LexValue.EOF, t⟩ [] [] (Or.inr rfl) htail
    simp [setNSEC, andThen, next, hdom, hs]
  · intro co h n1 s1 n2 s2 n3 s3 salt s4 nxt tail t i1 i2 i3 h1 h2 h3 htail
    rw [setNSEC3_unfold co h n1 s1 n2 s2 n3 s3 salt s4 nxt _ i1 i2 i3 h1 h2 h3]
    have hs := nsec3Tail_spec co tail ⟨LexValue.EOF, t⟩ [] [] (Or.inr rfl) htail
    simp [andThen, hs]

/-- C6 witness: the theorem applied at concrete inputs for all four
grammars, each stream ending in a bare `_EOF` with no `_NEWLINE`. -/
theorem C6_eof_terminates_witness :
    setTXT (hdr TypeTXT) [str ("ab"), eofTok] = (Except.ok ⟨hdr TypeTXT, "ab"⟩, []) ∧
    setRRSIG demoCollab (hdr TypeRRSIG)
      [str ("A"), blk (" "), str ("5"), blk (" "), str ("3"), blk (" "),
       str ("3600"), blk (" "), str ("00000000000000"), blk (" "),
       str ("00000000000001"), blk (" "), str ("2642"), blk (" "),
       str ("example.org"), str ("QUJD"), eofTok]
      = (Except.ok ⟨hdr TypeRRSIG, TypeA, 5, 3, 3600, 0, 1, 2642,
                    "example.org", "QUJD"⟩, []) ∧
    setNSEC demoCollab (hdr TypeNSEC)
      [str ("example.org"), blk (" "), str ("A"), blk (" "), str ("MX"), eofTok]
      = (Except.ok ⟨hdr TypeNSEC, "example.org", [TypeA, TypeMX]⟩, []) ∧
    setNSEC3 demoCollab (hdr TypeNSEC3)
      [str ("1"), blk (" "), str ("0"), blk (" "), str ("12"), blk (" "),
       str ("aabb"), blk (" "), str ("deadbeef"), blk (" "), str ("NS"), eofTok]
      = (Except.ok ⟨hdr TypeNSEC3, 1, 0, 12, 4, "aabb", 8, "deadbeef", [TypeNS]⟩, []) := by
  refine ⟨?_, ?_, ?_, ?_⟩
  · exact C6_eof_terminates.1 (hdr TypeTXT) [str ("ab")] ("") (by decide)
  · exact C6_eof_terminates.2.1 demoCollab (hdr TypeRRSIG) (str ("A")) (blk (" "))
      (str ("5")) (blk (" ")) (str ("3")) (blk (" ")) (str ("3600")) (blk (" "))
      (str ("00000000000000")) (blk (" ")) (str ("00000000000001")) (blk (" "))
      (str ("2642")) (blk (" ")) (str ("example.org")) [str ("QUJD")] ("")
      TypeA 5 3 3600 2642 0 1 (by decide) (by decide) (by decide) (by decide)
      (by decide) (by decide) (by decide) (by decide) (by decide)
  · exact C6_eof_terminates.2.2.1 demoCollab (hdr TypeNSEC) (str ("example.org"))
      [blk (" "), str ("A"), blk (" "), str ("MX")] ("") (by decide) (by decide)
  · exact C6_eof_terminates.2.2.2 demoCollab (hdr TypeNSEC3) (str ("1")) (blk (" "))
      (str ("0")) (blk (" ")) (str ("12")) (blk (" ")) (str ("aabb")) (blk (" "))
      (str ("deadbeef")) [blk (" "), str ("NS")] ("") 1 0 12
      (by decide) (by decide) (by decide) (by decide)

/-- C7: over the tail `[STRING "abc", BLANK b, STRING "def", NEWLINE]`
the text grammar accumulates `"abc" ++ b ++ "def"` (the blank payload
preserved verbatim in order), while the signature grammar accumulates
`"abcdef"` (blanks skipped, `_STRING` order preserved). -/
theorem C7_blank_payload :
    (∀ (h : RR_Header) (b np : String) (rest : List Lex),
      setTXT h (str ("abc") :: ⟨LexValue.BLANK, b⟩ :: str ("def") ::
          ⟨LexValue.NEWLINE, np⟩ :: rest)
        = (Except.ok ⟨h, "abc" ++ b ++ "def"⟩, rest)) ∧
    (∀ (co : Collab) (h : RR_Header) (cov s1 alg s2 lab s3 ot s4 ex s5 inc s6 kt s7 signer : Lex)
        (b np : String) (rest : List Lex) (tc : Nat) (ia il io ik : Int) (ie ii : Nat),
      co.Str_rr (strToUpper cov.token) = some tc →
      Atoi alg.token = some ia → Atoi lab.token = some il → Atoi ot.token = some io →
      co.dateToTime ex.token = some ie → co.dateToTime inc.token = some ii →
      Atoi kt.token = some ik → co.IsDomainName signer.token = true →
      setRRSIG co h (cov :: s1 :: alg :: s2 :: lab :: s3 :: ot :: s4 :: ex :: s5 ::
          inc :: s6 :: kt :: s7 :: signer :: str ("abc") :: ⟨LexValue.BLANK, b⟩ ::
          str ("def") :: ⟨LexValue.NEWLINE, np⟩ :: rest)
        = (Except.ok ⟨h, tc, toUint8 ia, toUint8 il, toUint32 io, ie, ii,
                      toUint16 ik, signer.token, "abcdef"⟩, rest)) := by
  constructor
  · intro h b np rest
    have hs := txtTail_spec [str ("abc"), ⟨LexValue.BLANK, b⟩, str ("def")]
      ⟨LexValue.NEWLINE, np⟩ rest ("") (Or.inl rfl) (by simp [str])
    simp only [List.cons_append, List.nil_append, str] at hs
    simp only [setTXT, andThen, str]
    rw [hs]
    simp [txtSpec, String.append_empty, String.empty_append, String.append_assoc]
  · intro co h cov s1 alg s2 lab s3 ot s4 ex s5 inc s6 kt s7 signer b np rest
      tc ia il io ik ie ii hc ha hl ho he hi hk hsig
    rw [setRRSIG_unfold co h cov s1 alg s2 lab s3 ot s4 ex s5 inc s6 kt s7 signer _
      tc ia il io ik ie ii hc ha hl ho he hi hk hsig]
    have hs := rrsigTail_spec [str ("abc"), ⟨LexValue.BLANK, b⟩, str ("def")]
      ⟨LexValue.NEWLINE, np⟩ rest ("") (Or.inl rfl) (by simp [str])
    simp only [List.cons_append, List.nil_append, str] at hs
    simp only [andThen, str]
    rw [hs]
    simp [sigSpec, String.append_empty, String.empty_append]

/-- C7 witness: the theorem applied at concrete inputs (blank payload
`" "`). -/
theorem C7_blank_payload_witness :
    setTXT (hdr TypeTXT) [str ("abc"), blk (" "), str ("def"), nl]
      = (Except.ok ⟨hdr TypeTXT, "abc def"⟩, []) ∧
    setRRSIG demoCollab (hdr TypeRRSIG)
      [str ("A"), blk (" "), str ("5"), blk (" "), str ("3"), blk (" "),
       str ("3600"), blk (" "), str ("00000000000000"), blk (" "),
       str ("00000000000001"), blk (" "), str ("2642"), blk (" "),
       str ("example.org"), str ("abc"), blk (" "), str ("def"), nl]
      = (Except.ok ⟨hdr TypeRRSIG, TypeA, 5, 3, 3600, 0, 1, 2642,
                    "example.org", "abcdef"⟩, []) := by
  constructor
  · exact C7_blank_payload.1 (hdr TypeTXT) (" ") ("\n") []
  · exact C7_blank_payload.2 demoCollab (hdr TypeRRSIG) (str ("A")) (blk (" "))
      (str ("5")) (blk (" ")) (str ("3")) (blk (" ")) (str ("3600")) (blk (" "))
      (str ("00000000000000")) (blk (" ")) (str ("00000000000001")) (blk (" "))
      (str ("2642")) (blk (" ")) (str ("example.org")) (" ") ("\n") []
      TypeA 5 3 3600 2642 0 1 (by decide) (by decide) (by decide) (by decide)
      (by decide) (by decide) (by decide) (by decide)

/-- C8, counterexample: the claim says every fixed-arity type — SOA in
particular — with valid field tokens followed immediately by `_NEWLINE`
(no trailing blank) parses successfully with the stream left just past
that `_NEWLINE`; but the SOA grammar consumes one separator token after
its last numeric field, so it swallows the `_NEWLINE` itself, and tail
consumption then fails on the next record's token. -/
theorem C8_counterexample :
    setRR demoCollab (hdr TypeSOA)
        [str ("ns.example.org"), blk (" "), str ("mbox.example.org"), blk (" "),
         str ("1"), blk (" "), str ("2"), blk (" "), str ("3"), blk (" "),
         str ("4"), blk (" "), str ("5"), nl, str ("x")]
      = (Except.error ⟨"garbage after rdata", str ("x")⟩, []) := by rfl

/-- C8, amended: for A, AAAA, NS, CNAME and MX, valid field tokens
followed immediately by `_NEWLINE` parse into a record whose fields
match the decoded inputs, with the stream left immediately past that
`_NEWLINE`; for SOA the grammar consumes one separator token after the
last numeric field, so the fields must be followed by a separator
(blank) and then `_NEWLINE`, after which the same conclusion holds. -/
theorem C8_fixed_arity :
    (∀ (co : Collab) (h : RR_Header) (l : Lex) (np : String) (rest : List Lex) (ip : List Nat),
      h.Rrtype = TypeA → ParseIP l.token = some ip →
      setRR co h (l :: ⟨LexValue.NEWLINE, np⟩ :: rest)
        = (Except.ok (RR.A ⟨h, ip⟩), rest)) ∧
    (∀ (co : Collab) (h : RR_Header) (l : Lex) (np : String) (rest : List Lex) (ip : List Nat),
      h.Rrtype = TypeAAAA → ParseIP l.token = some ip →
      setRR co h (l :: ⟨LexValue.NEWLINE, np⟩ :: rest)
        = (Except.ok (RR.AAAA ⟨h, ip⟩), rest)) ∧
    (∀ (co : Collab) (h : RR_Header) (l : Lex) (np : String) (rest : List Lex),
      h.Rrtype = TypeNS → co.IsDomainName l.token = true →
      setRR co h (l :: ⟨LexValue.NEWLINE, np⟩ :: rest)
        = (Except.ok (RR.NS ⟨h, l.token⟩), rest)) ∧
    (∀ (co : Collab) (h : RR_Header) (l : Lex) (np : String) (rest : List Lex),
      h.Rrtype = TypeCNAME → co.IsDomainName l.token = true →
      setRR co h (l :: ⟨LexValue.NEWLINE, np⟩ :: rest)
        = (Except.ok (RR.CNAME ⟨h, l.token⟩), rest)) ∧
    (∀ (co : Collab) (h : RR_Header) (p b m : Lex) (np : String) (rest : List Lex) (i : Int),
      h.Rrtype = TypeMX → Atoi p.token = some i → co.IsDomainName m.token = true →
      setRR co h (p :: b :: m :: ⟨LexValue.NEWLINE, np⟩ :: rest)
        = (Except.ok (RR.MX ⟨h, toUint16 i, m.token⟩), rest)) ∧
    (∀ (co : Collab) (h : RR_Header) (ns b1 mb b2 n1 b3 n2 b4 n3 b5 n4 b6 n5 b7 : Lex)
        (np : String) (rest : List Lex) (j1 j2 j3 j4 j5 : Int),
      h.Rrtype = TypeSOA →
      co.IsDomainName ns.token = true → co.IsDomainName mb.token = true →
      Atoi n1.token = some j1 → Atoi n2.token = some j2 → Atoi n3.token = some j3 →
      Atoi n4.token = some j4 → Atoi n5.token = some j5 →
      setRR co h (ns :: b1 :: mb :: b2 :: n1 :: b3 :: n2 :: b4 :: n3 :: b5 ::
          n4 :: b6 :: n5 :: b7 :: ⟨LexValue.NEWLINE, np⟩ :: rest)
        = (Except.ok (RR.SOA ⟨h, ns.token, mb.token, toUint32 j1, toUint32 j2,
                              toUint32 j3, toUint32 j4, toUint32 j5⟩), rest)) := by
  refine ⟨?_, ?_, ?_, ?_, ?_, ?_⟩
  · intro co h l np rest ip hty hp
    simp [setRR, hty, TypeA, TypeNS, TypeCNAME, TypeSOA, TypeMX, TypeTXT, TypeAAAA,
      TypeRRSIG, TypeNSEC, TypeNSEC3, withSlurp, setA, next, hp, slurpRemainder]
  · intro co h l np rest ip hty hp
    simp [setRR, hty, TypeA, TypeNS, TypeCNAME, TypeSOA, TypeMX, TypeTXT, TypeAAAA,
      TypeRRSIG, TypeNSEC, TypeNSEC3, withSlurp, setAAAA, next, hp, slurpRemainder]
  · intro co h l np rest hty hd
    simp [setRR, hty, TypeA, TypeNS, TypeCNAME, TypeSOA, TypeMX, TypeTXT, TypeAAAA,
      TypeRRSIG, TypeNSEC, TypeNSEC3, withSlurp, setNS, next, hd, slurpRemainder]
  · intro co h l np rest hty hd
    simp [setRR, hty, TypeA, TypeNS, TypeCNAME, TypeSOA, TypeMX, TypeTXT, TypeAAAA,
      TypeRRSIG, TypeNSEC, TypeNSEC3, withSlurp, setCNAME, next, hd, slurpRemainder]
  · intro co h p b m np rest i hty ha hd
    simp [setRR, hty, TypeA, TypeNS, TypeCNAME, TypeSOA, TypeMX, TypeTXT, TypeAAAA,
      TypeRRSIG, TypeNSEC, TypeNSEC3, withSlurp, setMX, next, ha, hd, slurpRemainder]
  · intro co h ns b1 mb b2 n1 b3 n2 b4 n3 b5 n4 b6 n5 b7 np rest j1 j2 j3 j4 j5
      hty hns hmb h1 h2 h3 h4 h5
    simp [setRR, hty, TypeA, TypeNS, TypeCNAME, TypeSOA, TypeMX, TypeTXT, TypeAAAA,
      TypeRRSIG, TypeNSEC, TypeNSEC3, withSlurp, setSOA, readSoaNum, andThen, next,
      hns, hmb, h1, h2, h3, h4, h5, slurpRemainder]

/-- C8 witness: the theorem applied at concrete inputs — an A record
followed directly by `_NEWLINE`, and a SOA record with its trailing
separator, each leaving the next record's token on the stream. -/
theorem C8_fixed_arity_witness :
    setRR demoCollab (hdr TypeA) [str ("192.0.2.1"), nl, str ("next")]
      = (Except.ok (RR.A ⟨hdr TypeA,
          [0, 0, 0, 0, 0, 0, 0, 0, 0, 0, 255, 255, 192, 0, 2, 1]⟩), [str ("next")]) ∧
    setRR demoCollab (hdr TypeSOA)
      [str ("ns.example.org"), blk (" "), str ("mbox.example.org"), blk (" "),
       str ("1"), blk (" "), str ("2"), blk (" "), str ("3"), blk (" "),
       str ("4"), blk (" "), str ("5"), blk (" "), nl, str ("next")]
      = (Except.ok (RR.SOA ⟨hdr TypeSOA, "ns.example.org", "mbox.example.org",
                            1, 2, 3, 4, 5⟩), [str ("next")]) := by
  constructor
  · exact C8_fixed_arity.1 demoCollab (hdr TypeA) (str ("192.0.2.1")) ("\n")
      [str ("next")] _ (by decide) (by decide)
  · exact C8_fixed_arity.2.2.2.2.2 demoCollab (hdr TypeSOA) (str ("ns.example.org"))
      (blk (" ")) (str ("mbox.example.org")) (blk (" ")) (str ("1")) (blk (" "))
      (str ("2")) (blk (" ")) (str ("3")) (blk (" ")) (str ("4")) (blk (" "))
      (str ("5")) (blk (" ")) ("\n") [str ("next")] 1 2 3 4 5 (by decide)
      (by decide) (by decide) (by decide) (by decide) (by decide) (by decide) (by decide)

/-- C9: for NSEC and NSEC3, a bitmap tail whose `_STRING` tokens all
resolve through the mnemonic lookup produces exactly those codes in
encounter order (`bitmapSpec`), with duplicates retained and nothing
sorted or deduplicated. -/
theorem C9_bitmap_order :
    (∀ (co : Collab) (h : RR_Header) (dom term : Lex) (tail rest : List Lex),
      co.IsDomainName dom.token = true →
      (term.value = LexValue.NEWLINE ∨ term.value = LexValue.EOF) →
      (∀ l ∈ tail,
        (l.value = LexValue.STRING ∧ (co.Str_rr (strToUpper l.token)).isSome) ∨
          l.value = LexValue.BLANK) →
      setNSEC co h (dom :: (tail ++ term :: rest))
        = (Except.ok ⟨h, dom.token, bitmapSpec co tail⟩, rest)) ∧
    (∀ (co : Collab) (h : RR_Header) (n1 s1 n2 s2 n3 s3 salt s4 nxt term : Lex)
        (tail rest : List Lex) (i1 i2 i3 : Int),
      Atoi n1.token = some i1 → Atoi n2.token = some i2 → Atoi n3.token = some i3 →
      (term.value = LexValue.NEWLINE ∨ term.value = LexValue.EOF) →
      (∀ l ∈ tail,
        (l.value = LexValue.STRING ∧ (co.Str_rr (strToUpper l.token)).isSome) ∨
          l.value = LexValue.BLANK) →
      setNSEC3 co h (n1 :: s1 :: n2 :: s2 :: n3 :: s3 :: salt :: s4 :: nxt ::
          (tail ++ term :: rest))
        = (Except.ok ⟨h, toUint8 i1, toUint8 i2, toUint16 i3, lenUint8 salt.token,
                      salt.token, lenUint8 nxt.token, nxt.token,
                      bitmapSpec co tail⟩, rest)) := by
  constructor
  · intro co h dom term tail rest hdom hterm htail
    have hs := nsecTail_spec co tail term rest [] hterm htail
    simp [setNSEC, andThen, next, hdom, hs]
  · intro co h n1 s1 n2 s2 n3 s3 salt s4 nxt term tail rest i1 i2 i3 h1 h2 h3 hterm htail
    rw [setNSEC3_unfold co h n1 s1 n2 s2 n3 s3 salt s4 nxt _ i1 i2 i3 h1 h2 h3]
    have hs := nsec3Tail_spec co tail term rest [] hterm htail
    simp [andThen, hs]

/-- C9 witness: the theorem applied at the spec's concrete scenario 4
(`A` then `MX` give `[code(A), code(MX)]` in that order), and at a tail
with a duplicated mnemonic, whose code appears twice. -/
theorem C9_bitmap_order_witness :
    setNSEC demoCollab (hdr TypeNSEC)
      [str ("example.org"), blk (" "), str ("A"), blk (" "), str ("MX"), nl]
      = (Except.ok ⟨hdr TypeNSEC, "example.org", [TypeA, TypeMX]⟩, []) ∧
    setNSEC demoCollab (hdr TypeNSEC)
      [str ("example.org"), blk (" "), str ("A"), blk (" "), str ("A"), nl]
      = (Except.ok ⟨hdr TypeNSEC, "example.org", [TypeA, TypeA]⟩, []) := by
  constructor
  · exact C9_bitmap_order.1 demoCollab (hdr TypeNSEC) (str ("example.org")) nl
      [blk (" "), str ("A"), blk (" "), str ("MX")] [] (by decide) (Or.inl rfl) (by decide)
  · exact C9_bitmap_order.1 demoCollab (hdr TypeNSEC) (str ("example.org")) nl
      [blk (" "), str ("A"), blk (" "), str ("A")] [] (by decide) (Or.inl rfl) (by decide)

/-- C10: at every fixed separator position between leading fields, the
grammar consumes exactly one token and discards it without inspecting
its tag — provided the parse reaches that position, the whole result is
unchanged when each separator token is replaced by an arbitrary other
token (in particular a `_STRING`, `_NEWLINE` or `_EOF` token is
silently swallowed there, with no error from that position). -/
theorem C10_separator_blind :
    (∀ (co : Collab) (h : RR_Header) (p x y : Lex) (rest : List Lex) (i : Int),
      Atoi p.token = some i →
      setMX co h (p :: x :: rest) = setMX co h (p :: y :: rest)) ∧
    (∀ (co : Collab) (h : RR_Header) (ns mb n1 n2 n3 n4 n5 : Lex)
        (x1 x2 x3 x4 x5 x6 x7 y1 y2 y3 y4 y5 y6 y7 : Lex) (rest : List Lex)
        (j1 j2 j3 j4 j5 : Int),
      co.IsDomainName ns.token = true → co.IsDomainName mb.token = true →
      Atoi n1.token = some j1 → Atoi n2.token = some j2 → Atoi n3.token = some j3 →
      Atoi n4.token = some j4 → Atoi n5.token = some j5 →
      setSOA co h (ns :: x1 :: mb :: x2 :: n1 :: x3 :: n2 :: x4 :: n3 :: x5 ::
          n4 :: x6 :: n5 :: x7 :: rest)
        = setSOA co h (ns :: y1 :: mb :: y2 :: n1 :: y3 :: n2 :: y4 :: n3 :: y5 ::
            n4 :: y6 :: n5 :: y7 :: rest)) ∧
    (∀ (co : Collab) (h : RR_Header) (cov alg lab ot ex inc kt signer : Lex)
        (x1 x2 x3 x4 x5 x6 x7 y1 y2 y3 y4 y5 y6 y7 : Lex) (rest : List Lex)
        (tc : Nat) (ia il io ik : Int) (ie ii : Nat),
      co.Str_rr (strToUpper cov.token) = some tc →
      Atoi alg.token = some ia → Atoi lab.token = some il → Atoi ot.token = some io →
      co.dateToTime ex.token = some ie → co.dateToTime inc.token = some ii →
      Atoi kt.token = some ik →
      setRRSIG co h (cov :: x1 :: alg :: x2 :: lab :: x3 :: ot :: x4 :: ex :: x5 ::
          inc :: x6 :: kt :: x7 :: signer :: rest)
        = setRRSIG co h (cov :: y1 :: alg :: y2 :: lab :: y3 :: ot :: y4 :: ex :: y5 ::
            inc :: y6 :: kt :: y7 :: signer :: rest)) ∧
    (∀ (co : Collab) (h : RR_Header) (n1 n2 n3 salt nxt : Lex)
        (x1 x2 x3 x4 y1 y2 y3 y4 : Lex) (rest : List Lex) (i1 i2 i3 : Int),
      Atoi n1.token = some i1 → Atoi n2.token = some i2 → Atoi n3.token = some i3 →
      setNSEC3 co h (n1 :: x1 :: n2 :: x2 :: n3 :: x3 :: salt :: x4 :: nxt :: rest)
        = setNSEC3 co h (n1 :: y1 :: n2 :: y2 :: n3 :: y3 :: salt :: y4 :: nxt :: rest)) := by
  refine ⟨?_, ?_, ?_, ?_⟩
  · intro co h p x y rest i ha
    simp [setMX, next, ha]
  · intro co h ns mb n1 n2 n3 n4 n5 x1 x2 x3 x4 x5 x6 x7 y1 y2 y3 y4 y5 y6 y7 rest
      j1 j2 j3 j4 j5 hns hmb h1 h2 h3 h4 h5
    simp [setSOA, readSoaNum, andThen, next, hns, hmb, h1, h2, h3, h4, h5]
  · intro co h cov alg lab ot ex inc kt signer x1 x2 x3 x4 x5 x6 x7 y1 y2 y3 y4 y5 y6 y7
      rest tc ia il io ik ie ii hc ha hl ho he hi hk
    simp [setRRSIG, sepThen, readNum, readDate, andThen, next, hc, ha, hl, ho, he, hi, hk]
  · intro co h n1 n2 n3 salt nxt x1 x2 x3 x4 y1 y2 y3 y4 rest i1 i2 i3 h1 h2 h3
    rw [setNSEC3_unfold co h n1 x1 n2 x2 n3 x3 salt x4 nxt rest i1 i2 i3 h1 h2 h3,
      setNSEC3_unfold co h n1 y1 n2 y2 n3 y3 salt y4 nxt rest i1 i2 i3 h1 h2 h3]

/-- C10 witness: the theorem applied at a concrete input — a `_NEWLINE`
token in the MX separator position is swallowed exactly as a `_BLANK`
is, and the parse still succeeds. -/
theorem C10_separator_blind_witness :
    setMX demoCollab (hdr TypeMX) [str ("10"), nl, str ("a.example")]
      = setMX demoCollab (hdr TypeMX) [str ("10"), blk (" "), str ("a.example")] ∧
    setMX demoCollab (hdr TypeMX) [str ("10"), nl, str ("a.example")]
      = (Except.ok ⟨hdr TypeMX, 10, "a.example"⟩, []) := by
  constructor
  · exact C10_separator_blind.1 demoCollab (hdr TypeMX) (str ("10")) nl (blk (" "))
      [str ("a.example")] 10 (by decide)
  · rfl

end Zscan
